import Mathlib

/-!
Shallow embedding of the SFBAudioEngine `AudioPlayer` (src/Player/AudioPlayer.cpp).

The player couples a decoder worker thread, a 16384-frame ring buffer, a realtime
render callback and a collector thread.  The definitions below translate the data
model (`DecoderStateData`, the active-decoder slots, the global frame counters)
and the operations the claims are about: `GetCurrentDecoderState`,
`GetDecoderStateStartingAfterTimeStamp`, `GetCurrentFrame`, `Enqueue`,
`SeekToFrame`, `Play`/`Pause`/`Stop`, the seek-servicing and chunk-decoding steps
of `DecoderThreadEntry`, the ring-buffer fetch step of `FillConversionBuffer`,
and the post-rendering distribution loop of `Render`.

64-bit machine integers (`SInt64`) are modelled as `Int`; the counters stay far
from the 2^63 boundary in every scenario considered, so wrap-around is not
modelled.  Callback side effects are modelled as an accumulated event list.
-/

/-- `RING_BUFFER_SIZE_FRAMES` (AudioPlayer.cpp line 56). -/
def RING_BUFFER_SIZE_FRAMES : Int := 16384

/-- `RING_BUFFER_WRITE_CHUNK_SIZE_FRAMES` (AudioPlayer.cpp line 57). -/
def RING_BUFFER_WRITE_CHUNK_SIZE_FRAMES : Int := 2048

/-- `kActiveDecoderArraySize`: the number of active-decoder slots. -/
def kActiveDecoderArraySize : Nat := 8

/-- PCM format descriptor (`AudioStreamBasicDescription`).  `Enqueue` compares two
descriptors with `memcmp`, i.e. bytewise; bytewise equality of the struct is
equality of every field's bit pattern, so each field is modelled as its bit
pattern (`mSampleRate` is a `Float64`; `mSampleRateBits` carries its 64-bit
pattern). -/
structure AudioStreamBasicDescription where
  mSampleRateBits : Nat
  mFormatID : Nat
  mFormatFlags : Nat
  mBytesPerPacket : Nat
  mFramesPerPacket : Nat
  mBytesPerFrame : Nat
  mChannelsPerFrame : Nat
  mBitsPerChannel : Nat
  mReserved : Nat
deriving DecidableEq, Repr

/-- The decoder collaborator, at the interface the player uses for the claims in
scope: its PCM format (`GetFormat`) and whether it supports seeking
(`SupportsSeeking`).  The behaviour of `ReadAudio`, `GetCurrentFrame` and
`SeekToFrame` is passed to the worker-step functions as explicit parameters. -/
structure AudioDecoder where
  mFormat : AudioStreamBasicDescription
  mSupportsSeeking : Bool
deriving DecidableEq, Repr

/-- Per-decoder bookkeeping (`DecoderStateData`), as used by AudioPlayer.cpp:
the owned decoder, the absolute timestamp of its first frame, total/rendered
frame counters, the seek-request slot (`-1` means none) and lifecycle flags. -/
structure DecoderStateData where
  mDecoder : AudioDecoder
  mTimeStamp : Int
  mTotalFrames : Int
  mFramesRendered : Int
  mFrameToSeek : Int
  mKeepDecoding : Bool
  mReadyForCollection : Bool
deriving DecidableEq, Repr

/-- The `mActiveDecoders` array: each slot is empty (`none`) or owns a state. -/
abbrev ActiveDecoders := List (Option DecoderStateData)

/-- Lifecycle callbacks fired by the player, tagged (where relevant) with the
timestamp of the decoder state they were fired for. -/
inductive PlayerEvent where
  | DecodingStarted : PlayerEvent
  | DecodingFinished : PlayerEvent
  | RenderingStarted : Int → PlayerEvent
  | RenderingFinished : Int → PlayerEvent
deriving DecidableEq, Repr

/-- Loop body of `AudioPlayer::GetCurrentDecoderState` (lines 1993-2009): skip
an empty slot, a collection-ready state and a state whose
`mTotalFrames == mFramesRendered`; otherwise keep whichever of the accumulator
and the slot has the smaller timestamp. -/
def GetCurrentDecoderState_step (result slot : Option DecoderStateData) :
    Option DecoderStateData :=
  match slot with
  | none => result
  | some decoderState =>
    if decoderState.mReadyForCollection then result
    else if decoderState.mTotalFrames = decoderState.mFramesRendered then result
    else
      match result with
      | none => some decoderState
      | some r =>
        if decoderState.mTimeStamp < r.mTimeStamp then some decoderState else some r

/-- `AudioPlayer::GetCurrentDecoderState` (lines 1990-2012): scan the slots,
skipping empty slots, collection-ready states and states whose
`mTotalFrames == mFramesRendered`; among the rest keep the smallest timestamp. -/
def GetCurrentDecoderState (mActiveDecoders : ActiveDecoders) : Option DecoderStateData :=
  mActiveDecoders.foldl GetCurrentDecoderState_step none

/-- Modelled from the spec (§4.3): the spec's reading of `current()`, in which a
state is "fully rendered" when `frames_rendered ≥ total_frames` (the completion
predicate of §4.2), not only on exact equality.  Kept separate from
`GetCurrentDecoderState`, which is translated from the source, so the two can be
compared. -/
def GetCurrentDecoderStateSpecVersion (mActiveDecoders : ActiveDecoders) :
    Option DecoderStateData :=
  mActiveDecoders.foldl
    (fun result slot =>
      match slot with
      | none => result
      | some decoderState =>
        if decoderState.mReadyForCollection then result
        else if decoderState.mTotalFrames ≤ decoderState.mFramesRendered then result
        else
          match result with
          | none => some decoderState
          | some r =>
            if decoderState.mTimeStamp < r.mTimeStamp then some decoderState else some r)
    none

/-- `AudioPlayer::GetDecoderStateStartingAfterTimeStamp` (lines 2014-2033):
among non-empty, non-collection-ready slots, the smallest timestamp strictly
greater than `timeStamp`. -/
def GetDecoderStateStartingAfterTimeStamp (mActiveDecoders : ActiveDecoders)
    (timeStamp : Int) : Option DecoderStateData :=
  mActiveDecoders.foldl
    (fun result slot =>
      match slot with
      | none => result
      | some decoderState =>
        if decoderState.mReadyForCollection then result
        else
          match result with
          | none =>
            if timeStamp < decoderState.mTimeStamp then some decoderState else none
          | some r =>
            if timeStamp < decoderState.mTimeStamp ∧ decoderState.mTimeStamp < r.mTimeStamp
            then some decoderState else some r)
    none

/-- `AudioPlayer::GetCurrentFrame` (lines 509-517): `-1` with no current state;
otherwise the pending seek target when one is in flight, else the state's
rendered-frame count. -/
def GetCurrentFrame (mActiveDecoders : ActiveDecoders) : Int :=
  match GetCurrentDecoderState mActiveDecoders with
  | none => -1
  | some currentDecoderState =>
    if currentDecoderState.mFrameToSeek = -1 then currentDecoderState.mFramesRendered
    else currentDecoderState.mFrameToSeek

/-- Replace, in the slot array, the state the worker/render path holds a pointer
to.  Pointer identity is modelled by the state's timestamp: timestamps are
captured from the monotone `mFramesDecoded` at activation, so distinct live
states have distinct timestamps (spec §4.3). -/
def updateDecoderState (mActiveDecoders : ActiveDecoders) (timeStamp : Int)
    (f : DecoderStateData → DecoderStateData) : ActiveDecoders :=
  mActiveDecoders.map (Option.map fun decoderState =>
    if decoderState.mTimeStamp = timeStamp then f decoderState else decoderState)

/-- The player fields the claims in scope touch.  Semaphore signals are counted;
`mConverterCreated` / `mRingBufferAllocated` record that
`CreateConverterAndConversionBuffer` resp. `CARingBuffer::Allocate` ran. -/
structure PlayerState where
  mActiveDecoders : ActiveDecoders
  mDecoderQueue : List AudioDecoder
  mRingBufferFormat : AudioStreamBasicDescription
  mConverterCreated : Bool
  mRingBufferAllocated : Bool
  mFramesDecoded : Int
  mFramesRendered : Int
  mIsPlaying : Bool
  decoderSemaphoreSignals : Nat
  collectorSemaphoreSignals : Nat
deriving DecidableEq, Repr

/-- `AudioPlayer::Play` (lines 467-473).  Starting the device is external;
`startOutputSucceeds` is the result of `StartOutput()`, which touches only the
device. -/
def AudioPlayer.Play (p : PlayerState) (startOutputSucceeds : Bool) : PlayerState :=
  if p.mIsPlaying then p
  else { p with mIsPlaying := startOutputSucceeds }

/-- `AudioPlayer::Pause` (lines 475-481).  `stopOutputSucceeds` is the result of
`StopOutput()`; the source sets `mIsPlaying = (false == StopOutput())`. -/
def AudioPlayer.Pause (p : PlayerState) (stopOutputSucceeds : Bool) : PlayerState :=
  if ¬ p.mIsPlaying then p
  else { p with mIsPlaying := ¬ stopOutputSucceeds }

/-- `AudioPlayer::StopActiveDecoders` (lines 2035-2051): mark every state in a
non-empty slot with `mKeepDecoding := false` and `mReadyForCollection := true`,
then signal the decoder and collector semaphores. -/
def AudioPlayer.StopActiveDecoders (p : PlayerState) : PlayerState :=
  { p with
    mActiveDecoders := p.mActiveDecoders.map (Option.map fun decoderState =>
      { decoderState with mKeepDecoding := false, mReadyForCollection := true })
    decoderSemaphoreSignals := p.decoderSemaphoreSignals + 1
    collectorSemaphoreSignals := p.collectorSemaphoreSignals + 1 }

/-- `AudioPlayer::Stop` (lines 483-493): `Pause()`, `StopActiveDecoders()`,
`ResetOutput()` (a no-op, lines 1980-1984), then zero both global counters. -/
def AudioPlayer.Stop (p : PlayerState) (stopOutputSucceeds : Bool) : PlayerState :=
  let p := AudioPlayer.Pause p stopOutputSucceeds
  let p := AudioPlayer.StopActiveDecoders p
  { p with mFramesDecoded := 0, mFramesRendered := 0 }

/-- `AudioPlayer::Enqueue(AudioDecoder *)` (lines 1154-1214).  With no current
state and an empty queue, adopt the decoder's format, build the converter and
conversion buffer, allocate the ring buffer; otherwise require the format to be
`memcmp`-equal to `mRingBufferFormat` and reject on mismatch.  On acceptance the
decoder is appended and the decoder semaphore signalled.  (The mutex cannot fail
in this model.) -/
def AudioPlayer.Enqueue (p : PlayerState) (decoder : AudioDecoder) :
    Bool × PlayerState :=
  let queueEmpty := p.mDecoderQueue.isEmpty
  if (GetCurrentDecoderState p.mActiveDecoders).isNone ∧ queueEmpty then
    let p := { p with
      mRingBufferFormat := decoder.mFormat
      mConverterCreated := true
      mRingBufferAllocated := true }
    (true, { p with
      mDecoderQueue := p.mDecoderQueue ++ [decoder]
      decoderSemaphoreSignals := p.decoderSemaphoreSignals + 1 })
  else
    let nextFormat := decoder.mFormat
    let formatsMatch := nextFormat = p.mRingBufferFormat
    if ¬ formatsMatch then (false, p)
    else
      (true, { p with
        mDecoderQueue := p.mDecoderQueue ++ [decoder]
        decoderSemaphoreSignals := p.decoderSemaphoreSignals + 1 })

/-- `AudioPlayer::SeekToFrame` (lines 594-612).  The compare-and-swap
`OSAtomicCompareAndSwap64Barrier(st.mFrameToSeek, frame, &st.mFrameToSeek)`
compares the slot against the value just loaded from it, so absent a concurrent
writer it succeeds and stores `frame` — also when a previous request is still in
flight, which it overwrites. -/
def AudioPlayer.SeekToFrame (p : PlayerState) (frame : Int) : Bool × PlayerState :=
  match GetCurrentDecoderState p.mActiveDecoders with
  | none => (false, p)
  | some currentDecoderState =>
    if ¬ currentDecoderState.mDecoder.mSupportsSeeking then (false, p)
    else
      (true, { p with
        mActiveDecoders := updateDecoderState p.mActiveDecoders
          currentDecoderState.mTimeStamp (fun ds => { ds with mFrameToSeek := frame })
        decoderSemaphoreSignals := p.decoderSemaphoreSignals + 1 })

/-- Result of servicing one seek request inside `DecoderThreadEntry`. -/
structure SeekServiceResult where
  decoderState : DecoderStateData
  mFramesDecoded : Int
  mFramesRendered : Int
  converterWasReset : Bool
  resetOutputCalled : Bool
deriving DecidableEq, Repr

/-- The seek-servicing block of `AudioPlayer::DecoderThreadEntry`
(lines 1623-1660), entered when `mFrameToSeek ≠ -1`.  External decoder
behaviour enters as parameters: `currentFrameBeforeSeeking` is
`decoder->GetCurrentFrame()` read before the seek, `newFrame` the landing frame
returned by `decoder->SeekToFrame(mFrameToSeek)`.  The slot-clearing CAS
compares `mFrameToSeek` against its own current value, so it sets the slot to
`-1`.  Exactly when `newFrame ≠ -1` the counters shift, the converter is reset
and `ResetOutput()` is called.  (The `eAudioPlayerFlagIsSeeking` flag is set for
the duration of the block and clear again on exit; it is not part of the
result.) -/
def serviceSeekRequest (decoderStateData : DecoderStateData)
    (mFramesDecoded mFramesRendered : Int)
    (currentFrameBeforeSeeking newFrame : Int) : SeekServiceResult :=
  let ds := { decoderStateData with mFrameToSeek := -1 }
  if newFrame ≠ -1 then
    let framesSkipped := newFrame - currentFrameBeforeSeeking
    let ds := { ds with mFramesRendered := newFrame }
    let fd := mFramesDecoded + framesSkipped
    { decoderState := ds
      mFramesDecoded := fd
      mFramesRendered := fd
      converterWasReset := true
      resetOutputCalled := true }
  else
    { decoderState := ds
      mFramesDecoded := mFramesDecoded
      mFramesRendered := mFramesRendered
      converterWasReset := false
      resetOutputCalled := false }

/-- Result of one chunk-decode pass of the inner ring-buffer fill loop. -/
structure DecodeChunkResult where
  decoderState : DecoderStateData
  mFramesDecoded : Int
  events : List PlayerEvent
  storedAt : Option (Nat × Int)
  exitedInnerLoop : Bool
deriving DecidableEq, Repr

/-- One pass of the chunk-decode body of `AudioPlayer::DecoderThreadEntry`
(lines 1662-1700), run when at least one chunk of free space exists and any
pending seek has been serviced.  `startingFrameNumber` is
`decoder->GetCurrentFrame()` read before the read; `framesDecodedByRead` is what
`decoder->ReadAudio(..., RING_BUFFER_WRITE_CHUNK_SIZE_FRAMES)` returned.  On a
non-empty read the chunk is stored at `startingFrameNumber + startTime` and
`mFramesDecoded` advances; on an empty read (end of stream) the finished
callback fires, `mKeepDecoding` clears and `mTotalFrames` is overwritten with
`startingFrameNumber`. -/
def decodeChunk (decoderStateData : DecoderStateData) (startTime : Int)
    (mFramesDecoded : Int) (startingFrameNumber : Int)
    (framesDecodedByRead : Nat) : DecodeChunkResult :=
  let events := if startingFrameNumber = 0 then [PlayerEvent.DecodingStarted] else []
  if framesDecodedByRead ≠ 0 then
    { decoderState := decoderStateData
      mFramesDecoded := mFramesDecoded + framesDecodedByRead
      events := events
      storedAt := some (framesDecodedByRead, startingFrameNumber + startTime)
      exitedInnerLoop := false }
  else
    { decoderState := { decoderStateData with
        mKeepDecoding := false
        mTotalFrames := startingFrameNumber }
      mFramesDecoded := mFramesDecoded
      events := events ++ [PlayerEvent.DecodingFinished]
      storedAt := none
      exitedInnerLoop := true }

/-- Result of one call of the converter input callback. -/
structure FillConversionBufferResult where
  framesToRead : Int
  mFramesRendered : Int
  fetchSourceFrame : Int
deriving DecidableEq, Repr

/-- `AudioPlayer::FillConversionBuffer` (lines 1496-1539): clamp the request to
the valid window `mFramesDecoded - mFramesRendered`, fetch that many frames at
`mFramesRendered`, then advance `mFramesRendered`.  The same amount accumulates
into `mFramesRenderedLastPass`. -/
def FillConversionBuffer (mFramesDecoded mFramesRendered ioNumberDataPackets : Int) :
    FillConversionBufferResult :=
  let framesAvailableToRead := mFramesDecoded - mFramesRendered
  let framesToRead := min framesAvailableToRead ioNumberDataPackets
  { framesToRead := framesToRead
    mFramesRendered := mFramesRendered + framesToRead
    fetchSourceFrame := mFramesRendered }

/-- The two counter-touching steps of the steady-state pipeline, as an atomic
interleaving semantics on `(mFramesDecoded, mFramesRendered)`:
`store` is the worker path of `DecoderThreadEntry` (lines 1615-1705) — gated on
one write chunk of free space, it adds the `1 ≤ n ≤ 2048` frames the read
produced — and `fetch` is the render-side path `FillConversionBuffer`
(lines 1496-1539) with a non-negative request.  Each step reads both counters
and writes its own; the other thread's counter moves only through the other
step, so every concurrent execution is one of these interleavings. -/
inductive PipelineStep : Int × Int → Int × Int → Prop where
  | store (mFramesDecoded mFramesRendered framesDecoded : Int)
      (hpos : 0 < framesDecoded)
      (hchunk : framesDecoded ≤ RING_BUFFER_WRITE_CHUNK_SIZE_FRAMES)
      (hspace : RING_BUFFER_WRITE_CHUNK_SIZE_FRAMES ≤
        RING_BUFFER_SIZE_FRAMES - (mFramesDecoded - mFramesRendered)) :
      PipelineStep (mFramesDecoded, mFramesRendered)
        (mFramesDecoded + framesDecoded, mFramesRendered)
  | fetch (mFramesDecoded mFramesRendered ioNumberDataPackets : Int)
      (hreq : 0 ≤ ioNumberDataPackets) :
      PipelineStep (mFramesDecoded, mFramesRendered)
        (mFramesDecoded,
         (FillConversionBuffer mFramesDecoded mFramesRendered ioNumberDataPackets).mFramesRendered)

/-- Counter pairs reachable from the initial `(0, 0)` (constructor, line 238;
also the value `Stop` resets to) by pipeline steps. -/
def PipelineReachable : Int × Int → Prop :=
  Relation.ReflTransGen PipelineStep (0, 0)

/-- Result of the post-rendering distribution phase of `Render`. -/
structure DistributeResult where
  mActiveDecoders : ActiveDecoders
  events : List PlayerEvent
  collectorSemaphoreSignals : Nat
  framesRemainingToDistribute : Int
deriving DecidableEq, Repr

/-- The body of the post-rendering loop of `AudioPlayer::Render`
(lines 1317-1347), fuelled: the real loop visits strictly increasing timestamps
drawn from at most `kActiveDecoderArraySize` slots, so any fuel exceeding the
slot count makes the fuel branch unreachable.  Each visit attributes
`min(mTotalFrames - mFramesRendered, mFramesRenderedLastPass)` frames to the
visited state, fires rendering-started when its `mFramesRendered` was zero,
fires rendering-finished / marks ready-for-collection / signals the collector
when `mFramesRendered` reaches `mTotalFrames` exactly, deducts the attribution
from the running tally, stops when the tally hits zero and otherwise moves to
`GetDecoderStateStartingAfterTimeStamp`. -/
def distributeLoop (fuel : Nat) (mActiveDecoders : ActiveDecoders)
    (mFramesRenderedLastPass : Int) (framesRemainingToDistribute : Int)
    (decoderState : Option DecoderStateData) (events : List PlayerEvent)
    (collectorSemaphoreSignals : Nat) : DistributeResult :=
  match fuel with
  | 0 =>
    { mActiveDecoders := mActiveDecoders, events := events
      collectorSemaphoreSignals := collectorSemaphoreSignals
      framesRemainingToDistribute := framesRemainingToDistribute }
  | fuel + 1 =>
    match decoderState with
    | none =>
      { mActiveDecoders := mActiveDecoders, events := events
        collectorSemaphoreSignals := collectorSemaphoreSignals
        framesRemainingToDistribute := framesRemainingToDistribute }
    | some ds =>
      let timeStamp := ds.mTimeStamp
      let decoderFramesRemaining := ds.mTotalFrames - ds.mFramesRendered
      let framesFromThisDecoder := min decoderFramesRemaining mFramesRenderedLastPass
      let events :=
        if ds.mFramesRendered = 0 then events ++ [PlayerEvent.RenderingStarted timeStamp]
        else events
      let ds := { ds with mFramesRendered := ds.mFramesRendered + framesFromThisDecoder }
      let finished := ds.mFramesRendered = ds.mTotalFrames
      let ds := if finished then { ds with mReadyForCollection := true } else ds
      let events :=
        if finished then events ++ [PlayerEvent.RenderingFinished timeStamp] else events
      let collectorSemaphoreSignals :=
        if finished then collectorSemaphoreSignals + 1 else collectorSemaphoreSignals
      let mActiveDecoders := updateDecoderState mActiveDecoders timeStamp (fun _ => ds)
      let framesRemainingToDistribute := framesRemainingToDistribute - framesFromThisDecoder
      if framesRemainingToDistribute = 0 then
        { mActiveDecoders := mActiveDecoders, events := events
          collectorSemaphoreSignals := collectorSemaphoreSignals
          framesRemainingToDistribute := framesRemainingToDistribute }
      else
        distributeLoop fuel mActiveDecoders mFramesRenderedLastPass
          framesRemainingToDistribute
          (GetDecoderStateStartingAfterTimeStamp mActiveDecoders timeStamp)
          events collectorSemaphoreSignals

/-- The post-rendering housekeeping of `AudioPlayer::Render` (lines 1306-1347):
nothing happens when no frames were rendered this pass; otherwise the tally
starts at `mFramesRenderedLastPass` and the walk starts at the current state. -/
def Render_distribute (mActiveDecoders : ActiveDecoders)
    (mFramesRenderedLastPass : Int) : DistributeResult :=
  if mFramesRenderedLastPass = 0 then
    { mActiveDecoders := mActiveDecoders, events := []
      collectorSemaphoreSignals := 0
      framesRemainingToDistribute := 0 }
  else
    distributeLoop (mActiveDecoders.length + 1) mActiveDecoders
      mFramesRenderedLastPass mFramesRenderedLastPass
      (GetCurrentDecoderState mActiveDecoders) [] 0

/-- Total frames the distribution phase attributed across the slots: the sum of
the per-state `mFramesRendered` advances. -/
def framesAttributed (before after : ActiveDecoders) : Int :=
  (after.map (fun slot => (slot.map (fun ds => ds.mFramesRendered)).getD 0)).sum -
  (before.map (fun slot => (slot.map (fun ds => ds.mFramesRendered)).getD 0)).sum

/-- The slot filter of `GetCurrentDecoderState` (lines 1996-2003), as a
predicate: a state it does not skip. -/
def IsCurrentCandidate (decoderState : DecoderStateData) : Prop :=
  decoderState.mReadyForCollection = false ∧
  decoderState.mTotalFrames ≠ decoderState.mFramesRendered

instance (decoderState : DecoderStateData) :
    Decidable (IsCurrentCandidate decoderState) := by
  unfold IsCurrentCandidate
  infer_instance

/-- A fixed sample PCM format (64-bit pattern of 44100.0, kAudioFormatLinearPCM,
float flags, stereo interleaved). -/
def sampleFormat : AudioStreamBasicDescription :=
  { mSampleRateBits := 4676829883349860352, mFormatID := 1819304813, mFormatFlags := 9
    mBytesPerPacket := 8, mFramesPerPacket := 1, mBytesPerFrame := 8
    mChannelsPerFrame := 2, mBitsPerChannel := 32, mReserved := 0 }

/-- A PCM format differing from `sampleFormat` (mono, different rate pattern). -/
def otherFormat : AudioStreamBasicDescription :=
  { mSampleRateBits := 4676643245223116800, mFormatID := 1819304813, mFormatFlags := 9
    mBytesPerPacket := 4, mFramesPerPacket := 1, mBytesPerFrame := 4
    mChannelsPerFrame := 1, mBitsPerChannel := 32, mReserved := 0 }

/-- A sample decoder that supports seeking. -/
def sampleDecoder : AudioDecoder :=
  { mFormat := sampleFormat, mSupportsSeeking := true }

/-- A sample decoder that does not support seeking. -/
def nonSeekableDecoder : AudioDecoder :=
  { mFormat := sampleFormat, mSupportsSeeking := false }

/-- Build a `DecoderStateData` over `sampleDecoder` with the given timestamp,
total/rendered counters, seek slot and collection flag. -/
def mkDecoderState (timeStamp totalFrames framesRendered frameToSeek : Int)
    (readyForCollection : Bool) : DecoderStateData :=
  { mDecoder := sampleDecoder, mTimeStamp := timeStamp, mTotalFrames := totalFrames
    mFramesRendered := framesRendered, mFrameToSeek := frameToSeek
    mKeepDecoding := true, mReadyForCollection := readyForCollection }

/-- A freshly constructed player: empty slots, empty queue, counters zero
(constructor, line 238). -/
def samplePlayerState : PlayerState :=
  { mActiveDecoders := [none, none, none, none, none, none, none, none]
    mDecoderQueue := [], mRingBufferFormat := sampleFormat
    mConverterCreated := false, mRingBufferAllocated := false
    mFramesDecoded := 0, mFramesRendered := 0, mIsPlaying := false
    decoderSemaphoreSignals := 0, collectorSemaphoreSignals := 0 }

/-- A decoder state whose `mFramesRendered` ran past its (EOS-rewritten)
`mTotalFrames`: rendered 5 of a total later rewritten to 3. -/
def overRenderedState : DecoderStateData := mkDecoderState 0 3 5 (-1) false

/-- Two candidate states with distinct timestamps, later one first in the
(unordered) slot array. -/
def sampleLateState : DecoderStateData := mkDecoderState 10 50 0 (-1) false

/-- See `sampleLateState`. -/
def sampleEarlyState : DecoderStateData := mkDecoderState 5 40 7 (-1) false

/-- An unordered slot array holding `sampleLateState` before `sampleEarlyState`. -/
def sampleActiveSet : ActiveDecoders :=
  [none, some sampleLateState, none, some sampleEarlyState]

/-- A player with one active decoder whose seek slot already holds request 5. -/
def inFlightSeekPlayer : PlayerState :=
  { samplePlayerState with mActiveDecoders := [some (mkDecoderState 0 100 10 5 false)] }

/-- First decoder of the gapless-join scenario: 4 frames left to render. -/
def gaplessFirstState : DecoderStateData := mkDecoderState 0 100 96 (-1) false

/-- Second decoder of the gapless-join scenario: nothing rendered yet. -/
def gaplessSecondState : DecoderStateData := mkDecoderState 100 200 0 (-1) false

/-- The active slots during the gapless handoff. -/
def gaplessActiveSet : ActiveDecoders := [some gaplessFirstState, some gaplessSecondState]

/-!  ## Theorems  -/

/-- C9: for every player state, `Pause()` followed by `Play()` leaves the global
`mFramesRendered` counter unchanged, and likewise `mFramesDecoded`, the active
decoder states and the pending queue: both operations touch only device output
and the `mIsPlaying` flag. -/
theorem Pause_then_Play_preserves_counters (p : PlayerState)
    (stopOutputSucceeds startOutputSucceeds : Bool) :
    (AudioPlayer.Play (AudioPlayer.Pause p stopOutputSucceeds) startOutputSucceeds).mFramesRendered
      = p.mFramesRendered ∧
    (AudioPlayer.Play (AudioPlayer.Pause p stopOutputSucceeds) startOutputSucceeds).mFramesDecoded
      = p.mFramesDecoded ∧
    (AudioPlayer.Play (AudioPlayer.Pause p stopOutputSucceeds) startOutputSucceeds).mActiveDecoders
      = p.mActiveDecoders ∧
    (AudioPlayer.Play (AudioPlayer.Pause p stopOutputSucceeds) startOutputSucceeds).mDecoderQueue
      = p.mDecoderQueue := by
  cases hp : p.mIsPlaying <;> cases stopOutputSucceeds <;> cases startOutputSucceeds <;>
    simp [AudioPlayer.Play, AudioPlayer.Pause, hp]

/-- C8: `Stop()` pauses (stopping the device when it was playing), marks every
state in a non-empty slot with `mKeepDecoding := false` and
`mReadyForCollection := true`, signals both the decoder and the collector
semaphores, and zeroes both global frame counters. -/
theorem Stop_marks_signals_and_zeros (p : PlayerState) (stopOutputSucceeds : Bool) :
    (AudioPlayer.Stop p stopOutputSucceeds).mActiveDecoders
      = p.mActiveDecoders.map (Option.map fun decoderState =>
          { decoderState with mKeepDecoding := false, mReadyForCollection := true }) ∧
    (AudioPlayer.Stop p stopOutputSucceeds).decoderSemaphoreSignals
      = p.decoderSemaphoreSignals + 1 ∧
    (AudioPlayer.Stop p stopOutputSucceeds).collectorSemaphoreSignals
      = p.collectorSemaphoreSignals + 1 ∧
    (AudioPlayer.Stop p stopOutputSucceeds).mFramesDecoded = 0 ∧
    (AudioPlayer.Stop p stopOutputSucceeds).mFramesRendered = 0 ∧
    (AudioPlayer.Stop p stopOutputSucceeds).mIsPlaying
      = (p.mIsPlaying && !stopOutputSucceeds) := by
  cases hp : p.mIsPlaying <;> cases stopOutputSucceeds <;>
    simp [AudioPlayer.Stop, AudioPlayer.StopActiveDecoders, AudioPlayer.Pause, hp]

/-- C10: `GetCurrentFrame` returns `-1` when there is no current decoder state;
with a current state it returns the pending seek target whenever
`mFrameToSeek ≠ -1`, and the state's `mFramesRendered` only when no seek is
pending. -/
theorem GetCurrentFrame_spec (mActiveDecoders : ActiveDecoders) :
    (GetCurrentDecoderState mActiveDecoders = none →
      GetCurrentFrame mActiveDecoders = -1) ∧
    (∀ currentDecoderState,
      GetCurrentDecoderState mActiveDecoders = some currentDecoderState →
      (currentDecoderState.mFrameToSeek ≠ -1 →
        GetCurrentFrame mActiveDecoders = currentDecoderState.mFrameToSeek) ∧
      (currentDecoderState.mFrameToSeek = -1 →
        GetCurrentFrame mActiveDecoders = currentDecoderState.mFramesRendered)) := by
  unfold GetCurrentFrame
  constructor
  · intro h
    rw [h]
  · intro ds h
    rw [h]
    constructor
    · intro hseek
      simp [hseek]
    · intro hseek
      simp [hseek]

/-- Witness for C10: with one active state whose seek slot holds 7, the reported
current frame is the pending target 7, not the 3 frames rendered. -/
theorem GetCurrentFrame_spec_witness :
    GetCurrentFrame [some (mkDecoderState 0 10 3 7 false)] = 7 :=
  ((GetCurrentFrame_spec [some (mkDecoderState 0 10 3 7 false)]).2
    (mkDecoderState 0 10 3 7 false) (by decide)).1 (by decide)

/-- C7: when the decoder's read returns 0 frames (end of stream), the worker
fires the decoding-finished callback, clears `mKeepDecoding` (exiting the decode
loop), and overwrites `mTotalFrames` with `startingFrameNumber` — the decoder's
current frame captured before that final read — whatever total was previously
recorded; nothing is stored and `mFramesDecoded` does not move. -/
theorem decodeChunk_eos (decoderStateData : DecoderStateData)
    (startTime mFramesDecoded startingFrameNumber : Int) (framesDecodedByRead : Nat)
    (heos : framesDecodedByRead = 0) :
    (decodeChunk decoderStateData startTime mFramesDecoded startingFrameNumber
        framesDecodedByRead).decoderState.mKeepDecoding = false ∧
    (decodeChunk decoderStateData startTime mFramesDecoded startingFrameNumber
        framesDecodedByRead).decoderState.mTotalFrames = startingFrameNumber ∧
    PlayerEvent.DecodingFinished ∈
      (decodeChunk decoderStateData startTime mFramesDecoded startingFrameNumber
        framesDecodedByRead).events ∧
    (decodeChunk decoderStateData startTime mFramesDecoded startingFrameNumber
        framesDecodedByRead).exitedInnerLoop = true ∧
    (decodeChunk decoderStateData startTime mFramesDecoded startingFrameNumber
        framesDecodedByRead).mFramesDecoded = mFramesDecoded ∧
    (decodeChunk decoderStateData startTime mFramesDecoded startingFrameNumber
        framesDecodedByRead).storedAt = none := by
  subst heos
  simp [decodeChunk]

/-- Witness for C7: a state that had optimistically reported 100 total frames
hits EOS at frame 42; its total is rewritten to 42. -/
theorem decodeChunk_eos_witness :
    (decodeChunk (mkDecoderState 0 100 50 (-1) false) 0 123 42 0).decoderState.mKeepDecoding
      = false ∧
    (decodeChunk (mkDecoderState 0 100 50 (-1) false) 0 123 42 0).decoderState.mTotalFrames
      = 42 ∧
    PlayerEvent.DecodingFinished ∈
      (decodeChunk (mkDecoderState 0 100 50 (-1) false) 0 123 42 0).events ∧
    (decodeChunk (mkDecoderState 0 100 50 (-1) false) 0 123 42 0).exitedInnerLoop = true ∧
    (decodeChunk (mkDecoderState 0 100 50 (-1) false) 0 123 42 0).mFramesDecoded = 123 ∧
    (decodeChunk (mkDecoderState 0 100 50 (-1) false) 0 123 42 0).storedAt = none :=
  decodeChunk_eos (mkDecoderState 0 100 50 (-1) false) 0 123 42 0 rfl

/-- C3 (amended): servicing a pending seek request always clears the seek slot
back to `-1`; exactly when the decoder landed at `newFrame ≠ -1` — the source's
success test, rather than `newFrame ≥ 0` — the state's `mFramesRendered` is set
to `newFrame`, the global `mFramesDecoded` is shifted by
`newFrame - currentFrameBeforeSeeking`, the global `mFramesRendered` is set
equal to `mFramesDecoded`, the converter is reset and `ResetOutput()` is
called; when `newFrame = -1` none of these change. -/
theorem serviceSeekRequest_spec (decoderStateData : DecoderStateData)
    (mFramesDecoded mFramesRendered currentFrameBeforeSeeking newFrame : Int)
    (hpending : 0 ≤ decoderStateData.mFrameToSeek) :
    (serviceSeekRequest decoderStateData mFramesDecoded mFramesRendered
        currentFrameBeforeSeeking newFrame).decoderState.mFrameToSeek = -1 ∧
    (newFrame ≠ -1 →
      (serviceSeekRequest decoderStateData mFramesDecoded mFramesRendered
          currentFrameBeforeSeeking newFrame).decoderState.mFramesRendered = newFrame ∧
      (serviceSeekRequest decoderStateData mFramesDecoded mFramesRendered
          currentFrameBeforeSeeking newFrame).mFramesDecoded
        = mFramesDecoded + (newFrame - currentFrameBeforeSeeking) ∧
      (serviceSeekRequest decoderStateData mFramesDecoded mFramesRendered
          currentFrameBeforeSeeking newFrame).mFramesRendered
        = (serviceSeekRequest decoderStateData mFramesDecoded mFramesRendered
          currentFrameBeforeSeeking newFrame).mFramesDecoded ∧
      (serviceSeekRequest decoderStateData mFramesDecoded mFramesRendered
          currentFrameBeforeSeeking newFrame).converterWasReset = true ∧
      (serviceSeekRequest decoderStateData mFramesDecoded mFramesRendered
          currentFrameBeforeSeeking newFrame).resetOutputCalled = true) ∧
    (newFrame = -1 →
      (serviceSeekRequest decoderStateData mFramesDecoded mFramesRendered
          currentFrameBeforeSeeking newFrame).decoderState.mFramesRendered
        = decoderStateData.mFramesRendered ∧
      (serviceSeekRequest decoderStateData mFramesDecoded mFramesRendered
          currentFrameBeforeSeeking newFrame).mFramesDecoded = mFramesDecoded ∧
      (serviceSeekRequest decoderStateData mFramesDecoded mFramesRendered
          currentFrameBeforeSeeking newFrame).mFramesRendered = mFramesRendered ∧
      (serviceSeekRequest decoderStateData mFramesDecoded mFramesRendered
          currentFrameBeforeSeeking newFrame).converterWasReset = false ∧
      (serviceSeekRequest decoderStateData mFramesDecoded mFramesRendered
          currentFrameBeforeSeeking newFrame).resetOutputCalled = false) := by
  by_cases h : newFrame = -1 <;> simp [serviceSeekRequest, h]

/-- Witness for C3 (amended): a pending request 5, decoder at frame 40 before a
seek landing at 77: the slot clears, `mFramesDecoded` shifts by 37 from 300 to
337 and `mFramesRendered` equalizes to it. -/
theorem serviceSeekRequest_spec_witness :
    (serviceSeekRequest (mkDecoderState 0 100 10 5 false) 300 200 40 77).decoderState.mFrameToSeek
      = -1 ∧
    ((77 : Int) ≠ -1 →
      (serviceSeekRequest (mkDecoderState 0 100 10 5 false) 300 200 40 77).decoderState.mFramesRendered = 77 ∧
      (serviceSeekRequest (mkDecoderState 0 100 10 5 false) 300 200 40 77).mFramesDecoded
        = 300 + (77 - 40) ∧
      (serviceSeekRequest (mkDecoderState 0 100 10 5 false) 300 200 40 77).mFramesRendered
        = (serviceSeekRequest (mkDecoderState 0 100 10 5 false) 300 200 40 77).mFramesDecoded ∧
      (serviceSeekRequest (mkDecoderState 0 100 10 5 false) 300 200 40 77).converterWasReset
        = true ∧
      (serviceSeekRequest (mkDecoderState 0 100 10 5 false) 300 200 40 77).resetOutputCalled
        = true) ∧
    ((77 : Int) = -1 →
      (serviceSeekRequest (mkDecoderState 0 100 10 5 false) 300 200 40 77).decoderState.mFramesRendered
        = (mkDecoderState 0 100 10 5 false).mFramesRendered ∧
      (serviceSeekRequest (mkDecoderState 0 100 10 5 false) 300 200 40 77).mFramesDecoded = 300 ∧
      (serviceSeekRequest (mkDecoderState 0 100 10 5 false) 300 200 40 77).mFramesRendered = 200 ∧
      (serviceSeekRequest (mkDecoderState 0 100 10 5 false) 300 200 40 77).converterWasReset
        = false ∧
      (serviceSeekRequest (mkDecoderState 0 100 10 5 false) 300 200 40 77).resetOutputCalled
        = false) :=
  serviceSeekRequest_spec (mkDecoderState 0 100 10 5 false) 300 200 40 77 (by decide)

/-- Counterexample for C3 as stated: the claim divides on the sign of the landing
frame (`post ≥ 0` updates, `post < 0` leaves the counters alone), but the
source's test is `-1 != newFrame`; a decoder whose seek returns `-2` — negative,
so a failure per the claim — still shifts `mFramesDecoded` (here from 300 to
`300 + (-2 - 40) = 258`), equalizes `mFramesRendered` and resets the
converter. -/
theorem serviceSeekRequest_counterexample :
    (-2 : Int) < 0 ∧
    (serviceSeekRequest (mkDecoderState 0 100 10 5 false) 300 200 40 (-2)).mFramesDecoded = 258 ∧
    ¬ (serviceSeekRequest (mkDecoderState 0 100 10 5 false) 300 200 40 (-2)).mFramesDecoded = 300 ∧
    (serviceSeekRequest (mkDecoderState 0 100 10 5 false) 300 200 40 (-2)).converterWasReset
      = true := by
  decide

/-- C2 (code bug): during a gapless handoff with 10 frames rendered this pass,
the first decoder having 4 frames left and the second 200, the distribution loop
of `Render` credits `min(200, 10) = 10` frames to the second decoder — the
`min` at line 1326 is taken against the whole `mFramesRenderedLastPass`, not
against the 6 frames still undistributed — so 14 frames are attributed in total,
the running tally ends at `-4` instead of 0, and the second decoder's position
is advanced to 10 although only 6 of its frames were consumed. -/
theorem Render_distribute_overattribution :
    framesAttributed gaplessActiveSet (Render_distribute gaplessActiveSet 10).mActiveDecoders
      = 14 ∧
    ¬ framesAttributed gaplessActiveSet (Render_distribute gaplessActiveSet 10).mActiveDecoders
      = 10 ∧
    (Render_distribute gaplessActiveSet 10).framesRemainingToDistribute = -4 ∧
    (Render_distribute gaplessActiveSet 10).mActiveDecoders
      = [some { gaplessFirstState with mFramesRendered := 100, mReadyForCollection := true },
         some { gaplessSecondState with mFramesRendered := 10 }] ∧
    (Render_distribute gaplessActiveSet 10).events
      = [PlayerEvent.RenderingFinished 0, PlayerEvent.RenderingStarted 100] := by
  decide

/-- The counter invariant of the store/fetch pipeline. -/
def PipelineInv (s : Int × Int) : Prop :=
  0 ≤ s.2 ∧ s.2 ≤ s.1 ∧ s.1 - s.2 ≤ RING_BUFFER_SIZE_FRAMES

/-- Every pipeline step preserves the counter invariant: a store is gated on one
write chunk of free space and adds at most one chunk, and a fetch is clamped to
the valid window. -/
theorem PipelineInv_step {s s2 : Int × Int} (hinv : PipelineInv s)
    (hstep : PipelineStep s s2) : PipelineInv s2 := by
  obtain ⟨h0, h1, h2⟩ := hinv
  cases hstep with
  | store mFramesDecoded mFramesRendered framesDecoded hpos hchunk hspace =>
    simp only [RING_BUFFER_SIZE_FRAMES, RING_BUFFER_WRITE_CHUNK_SIZE_FRAMES,
      PipelineInv] at *
    omega
  | fetch mFramesDecoded mFramesRendered ioNumberDataPackets hreq =>
    simp only [RING_BUFFER_SIZE_FRAMES, FillConversionBuffer, PipelineInv,
      Int.min_def] at *
    split at * <;> omega

/-- Given the invariant, every pipeline step moves both counters weakly
upward. -/
theorem PipelineStep_mono {s s2 : Int × Int} (hinv : PipelineInv s)
    (hstep : PipelineStep s s2) : s.1 ≤ s2.1 ∧ s.2 ≤ s2.2 := by
  obtain ⟨h0, h1, h2⟩ := hinv
  cases hstep with
  | store mFramesDecoded mFramesRendered framesDecoded hpos hchunk hspace =>
    simp only [RING_BUFFER_SIZE_FRAMES, RING_BUFFER_WRITE_CHUNK_SIZE_FRAMES] at *
    omega
  | fetch mFramesDecoded mFramesRendered ioNumberDataPackets hreq =>
    simp only [FillConversionBuffer, Int.min_def] at *
    split <;> omega

/-- The invariant holds in every reachable counter pair. -/
theorem PipelineReachable_inv (s : Int × Int) (h : PipelineReachable s) :
    PipelineInv s := by
  induction h with
  | refl =>
    refine ⟨le_refl 0, le_refl 0, ?_⟩
    simp [RING_BUFFER_SIZE_FRAMES]
  | tail hsteps hstep ih => exact PipelineInv_step ih hstep

/-- C1: in every interleaving of the decoder-worker store path
(`DecoderThreadEntry`, gated on `RING_BUFFER_WRITE_CHUNK_SIZE_FRAMES` of free
space) with the render-side fetch path (`FillConversionBuffer`, clamped to
`mFramesDecoded - mFramesRendered`), every counter pair reachable from `(0, 0)`
satisfies `0 ≤ mFramesRendered ≤ mFramesDecoded` and
`mFramesDecoded - mFramesRendered ≤ RING_BUFFER_SIZE_FRAMES`, and every further
step moves both counters weakly upward (`Stop`, which resets both counters to
zero, is outside the relation). -/
theorem pipeline_counters_invariant (s : Int × Int) (h : PipelineReachable s) :
    (0 ≤ s.2 ∧ s.2 ≤ s.1 ∧ s.1 - s.2 ≤ RING_BUFFER_SIZE_FRAMES) ∧
    ∀ s2, PipelineStep s s2 → s.1 ≤ s2.1 ∧ s.2 ≤ s2.2 := by
  have hinv := PipelineReachable_inv s h
  exact ⟨hinv, fun s2 hstep => PipelineStep_mono hinv hstep⟩

/-- Witness for C1: the state after one full store chunk and a 1024-frame fetch
is reachable, satisfies the invariant, and steps from it keep growing. -/
theorem pipeline_counters_invariant_witness :
    (0 ≤ (1024 : Int) ∧ (1024 : Int) ≤ (2048 : Int) ∧
      (2048 : Int) - 1024 ≤ RING_BUFFER_SIZE_FRAMES) ∧
    ∀ s2, PipelineStep ((2048 : Int), (1024 : Int)) s2 →
      (2048 : Int) ≤ s2.1 ∧ (1024 : Int) ≤ s2.2 :=
  pipeline_counters_invariant (2048, 1024)
    (Relation.ReflTransGen.tail
      (Relation.ReflTransGen.tail (Relation.ReflTransGen.refl)
        (PipelineStep.store 0 0 2048 (by decide) (by decide) (by decide)))
      (PipelineStep.fetch 2048 0 1024 (by decide)))

/-- C5: `Enqueue(decoder)`: with no current decoder state and an empty pending
queue it adopts the decoder's format as the ring-buffer format, builds the
converter and conversion buffer, allocates the ring buffer, appends the decoder,
signals the worker and returns true; otherwise it returns true and appends
exactly when the decoder's format is `memcmp`-equal to `mRingBufferFormat`, and
on a mismatch it returns false with the pending queue (and the whole player
state) unchanged, the decoder not taken over. -/
theorem Enqueue_spec (p : PlayerState) (decoder : AudioDecoder) :
    (GetCurrentDecoderState p.mActiveDecoders = none ∧ p.mDecoderQueue = [] →
      (AudioPlayer.Enqueue p decoder).1 = true ∧
      (AudioPlayer.Enqueue p decoder).2.mRingBufferFormat = decoder.mFormat ∧
      (AudioPlayer.Enqueue p decoder).2.mConverterCreated = true ∧
      (AudioPlayer.Enqueue p decoder).2.mRingBufferAllocated = true ∧
      (AudioPlayer.Enqueue p decoder).2.mDecoderQueue = p.mDecoderQueue ++ [decoder] ∧
      (AudioPlayer.Enqueue p decoder).2.decoderSemaphoreSignals
        = p.decoderSemaphoreSignals + 1) ∧
    (¬ (GetCurrentDecoderState p.mActiveDecoders = none ∧ p.mDecoderQueue = []) →
      ((AudioPlayer.Enqueue p decoder).1 = true ↔ decoder.mFormat = p.mRingBufferFormat) ∧
      (decoder.mFormat = p.mRingBufferFormat →
        (AudioPlayer.Enqueue p decoder).2.mDecoderQueue = p.mDecoderQueue ++ [decoder] ∧
        (AudioPlayer.Enqueue p decoder).2.mRingBufferFormat = p.mRingBufferFormat ∧
        (AudioPlayer.Enqueue p decoder).2.decoderSemaphoreSignals
          = p.decoderSemaphoreSignals + 1) ∧
      (decoder.mFormat ≠ p.mRingBufferFormat →
        (AudioPlayer.Enqueue p decoder).1 = false ∧
        (AudioPlayer.Enqueue p decoder).2 = p)) := by
  constructor
  · intro ⟨hcur, hqueue⟩
    simp [AudioPlayer.Enqueue, hcur, hqueue]
  · intro hnot
    by_cases hfmt : decoder.mFormat = p.mRingBufferFormat <;>
      simp [AudioPlayer.Enqueue, hfmt, hnot]

/-- Witness for C5, fresh-player side: enqueueing into an empty player adopts
the decoder's format, allocates, appends and signals. -/
theorem Enqueue_spec_witness :
    (AudioPlayer.Enqueue samplePlayerState sampleDecoder).1 = true ∧
    (AudioPlayer.Enqueue samplePlayerState sampleDecoder).2.mRingBufferFormat
      = sampleDecoder.mFormat ∧
    (AudioPlayer.Enqueue samplePlayerState sampleDecoder).2.mConverterCreated = true ∧
    (AudioPlayer.Enqueue samplePlayerState sampleDecoder).2.mRingBufferAllocated = true ∧
    (AudioPlayer.Enqueue samplePlayerState sampleDecoder).2.mDecoderQueue
      = samplePlayerState.mDecoderQueue ++ [sampleDecoder] ∧
    (AudioPlayer.Enqueue samplePlayerState sampleDecoder).2.decoderSemaphoreSignals
      = samplePlayerState.decoderSemaphoreSignals + 1 :=
  (Enqueue_spec samplePlayerState sampleDecoder).1 ⟨by decide, rfl⟩


/-- The scan body never produces a state it would itself skip. -/
theorem GetCurrentDecoderState_step_cand {acc slot : Option DecoderStateData}
    (hacc : ∀ b, acc = some b → IsCurrentCandidate b) :
    ∀ b, GetCurrentDecoderState_step acc slot = some b → IsCurrentCandidate b := by
  intro b hb
  unfold GetCurrentDecoderState_step at hb
  cases slot with
  | none => exact hacc b hb
  | some ds =>
    simp only at hb
    split_ifs at hb with h1 h2
    · exact hacc b hb
    · exact hacc b hb
    · cases acc with
      | none =>
        cases hb
        exact ⟨by simpa using h1, h2⟩
      | some r =>
        simp only at hb
        split_ifs at hb
        · cases hb
          exact ⟨by simpa using h1, h2⟩
        · exact hacc b hb

/-- The scan body's output comes from the accumulator or from the slot. -/
theorem GetCurrentDecoderState_step_origin {acc slot : Option DecoderStateData} :
    ∀ b, GetCurrentDecoderState_step acc slot = some b → acc = some b ∨ slot = some b := by
  intro b hb
  unfold GetCurrentDecoderState_step at hb
  cases slot with
  | none => exact Or.inl hb
  | some ds =>
    simp only at hb
    split_ifs at hb with h1 h2
    · exact Or.inl hb
    · exact Or.inl hb
    · cases acc with
      | none => exact Or.inr hb
      | some r =>
        simp only at hb
        split_ifs at hb
        · exact Or.inr hb
        · exact Or.inl hb

/-- The scan body never replaces the accumulator by a later timestamp. -/
theorem GetCurrentDecoderState_step_min {acc slot : Option DecoderStateData} :
    ∀ b, acc = some b →
      ∃ m, GetCurrentDecoderState_step acc slot = some m ∧
        m.mTimeStamp ≤ b.mTimeStamp := by
  intro b hb
  subst hb
  unfold GetCurrentDecoderState_step
  cases slot with
  | none => exact ⟨b, rfl, le_refl _⟩
  | some ds =>
    simp only
    split_ifs with h1 h2 h3
    · exact ⟨b, rfl, le_refl _⟩
    · exact ⟨b, rfl, le_refl _⟩
    · exact ⟨ds, rfl, le_of_lt h3⟩
    · exact ⟨b, rfl, le_refl _⟩

/-- On a candidate slot the scan body yields a state no later than that slot. -/
theorem GetCurrentDecoderState_step_picks {acc : Option DecoderStateData}
    {ds : DecoderStateData} (hcand : IsCurrentCandidate ds) :
    ∃ m, GetCurrentDecoderState_step acc (some ds) = some m ∧
      m.mTimeStamp ≤ ds.mTimeStamp := by
  unfold GetCurrentDecoderState_step
  simp only
  split_ifs with h1 h2
  · exact absurd h1 (by simp [hcand.1])
  · exact absurd h2 hcand.2
  · cases acc with
    | none => exact ⟨ds, rfl, le_refl _⟩
    | some r =>
      simp only
      split_ifs with h3
      · exact ⟨ds, rfl, le_refl _⟩
      · exact ⟨r, rfl, le_of_not_lt h3⟩

/-- Characterization of the `GetCurrentDecoderState` scan, generalized over the
accumulator: the result is a candidate drawn from the accumulator or the list,
any candidate in the list forces a result no later than it, and the result is
never later than the incoming accumulator. -/
theorem GetCurrentDecoderState_go (l : List (Option DecoderStateData)) :
    ∀ acc : Option DecoderStateData,
      (∀ b, acc = some b → IsCurrentCandidate b) →
      (∀ a, l.foldl GetCurrentDecoderState_step acc = some a →
        IsCurrentCandidate a ∧ (acc = some a ∨ some a ∈ l)) ∧
      (∀ ds, some ds ∈ l → IsCurrentCandidate ds →
        ∃ a, l.foldl GetCurrentDecoderState_step acc = some a ∧
          a.mTimeStamp ≤ ds.mTimeStamp) ∧
      (∀ b, acc = some b →
        ∃ a, l.foldl GetCurrentDecoderState_step acc = some a ∧
          a.mTimeStamp ≤ b.mTimeStamp) := by
  induction l with
  | nil =>
    intro acc hacc
    refine ⟨fun a ha => ⟨hacc a ha, Or.inl ha⟩, fun ds hds => absurd hds (by simp), ?_⟩
    intro b hb
    exact ⟨b, hb, le_refl _⟩
  | cons slot rest ih =>
    intro acc hacc
    have hacc2 : ∀ b, GetCurrentDecoderState_step acc slot = some b →
        IsCurrentCandidate b := GetCurrentDecoderState_step_cand hacc
    obtain ⟨ih1, ih2, ih3⟩ := ih (GetCurrentDecoderState_step acc slot) hacc2
    refine ⟨?_, ?_, ?_⟩
    · intro a ha
      rw [List.foldl_cons] at ha
      obtain ⟨hca, horig⟩ := ih1 a ha
      refine ⟨hca, ?_⟩
      cases horig with
      | inl h =>
        cases GetCurrentDecoderState_step_origin a h with
        | inl h2 => exact Or.inl h2
        | inr h2 => exact Or.inr (h2 ▸ List.mem_cons_self slot rest)
      | inr h => exact Or.inr (List.mem_cons_of_mem slot h)
    · intro ds hds hcand
      rw [List.foldl_cons]
      cases List.mem_cons.mp hds with
      | inl h =>
        subst h
        obtain ⟨m, hm, hmle⟩ := @GetCurrentDecoderState_step_picks acc _ hcand
        obtain ⟨a, ha, hale⟩ := ih3 m hm
        exact ⟨a, ha, le_trans hale hmle⟩
      | inr h => exact ih2 ds h hcand
    · intro b hb
      rw [List.foldl_cons]
      obtain ⟨m, hm, hmle⟩ := GetCurrentDecoderState_step_min b hb
      obtain ⟨a, ha, hale⟩ := ih3 m hm
      exact ⟨a, ha, le_trans hale hmle⟩

/-- A state the scan returns occupies one of the scanned slots. -/
theorem GetCurrentDecoderState_mem_of_some (mActiveDecoders : ActiveDecoders)
    (ds : DecoderStateData) (h : GetCurrentDecoderState mActiveDecoders = some ds) :
    some ds ∈ mActiveDecoders := by
  obtain ⟨h1, h2, h3⟩ :=
    GetCurrentDecoderState_go mActiveDecoders none (fun b hb => by cases hb)
  rcases (h1 ds h).2 with h4 | h4
  · cases h4
  · exact h4

/-- C4 (amended): `GetCurrentDecoderState` returns, among the non-empty slots
that are not ready-for-collection and whose `mFramesRendered` differs from
`mTotalFrames` by exact inequality — so a state whose `mFramesRendered` ran
past `mTotalFrames` is still eligible — a state of minimal timestamp, and
`none` exactly when no such state exists. -/
theorem GetCurrentDecoderState_spec (mActiveDecoders : ActiveDecoders) :
    (∀ ds, GetCurrentDecoderState mActiveDecoders = some ds →
      IsCurrentCandidate ds ∧ some ds ∈ mActiveDecoders ∧
      ∀ ds2, some ds2 ∈ mActiveDecoders → IsCurrentCandidate ds2 →
        ds.mTimeStamp ≤ ds2.mTimeStamp) ∧
    (GetCurrentDecoderState mActiveDecoders = none →
      ∀ ds, some ds ∈ mActiveDecoders → ¬ IsCurrentCandidate ds) := by
  obtain ⟨h1, h2, h3⟩ :=
    GetCurrentDecoderState_go mActiveDecoders none (fun b hb => by cases hb)
  simp only [GetCurrentDecoderState]
  constructor
  · intro ds hds
    obtain ⟨hcand, horig⟩ := h1 ds hds
    have hmem : some ds ∈ mActiveDecoders := by
      cases horig with
      | inl h => cases h
      | inr h => exact h
    refine ⟨hcand, hmem, ?_⟩
    intro ds2 hds2 hcand2
    obtain ⟨a, ha, hale⟩ := h2 ds2 hds2 hcand2
    rw [hds] at ha
    cases ha
    exact hale
  · intro hnone ds hds hcand
    obtain ⟨a, ha, _⟩ := h2 ds hds hcand
    rw [hnone] at ha
    cases ha

/-- Witness for C4 (amended): on an unordered slot array holding candidates with
timestamps 10 and 5, the scan returns the timestamp-5 state, a member and no
later than the timestamp-10 candidate. -/
theorem GetCurrentDecoderState_spec_witness :
    IsCurrentCandidate sampleEarlyState ∧
    some sampleEarlyState ∈ sampleActiveSet ∧
    sampleEarlyState.mTimeStamp ≤ sampleLateState.mTimeStamp := by
  have h := (GetCurrentDecoderState_spec sampleActiveSet).1 sampleEarlyState (by decide)
  exact ⟨h.1, h.2.1, h.2.2 sampleLateState (by decide) (by decide)⟩

/-- Counterexample for C4 as stated: the claim requires "fully rendered" to be
judged by `mFramesRendered ≥ mTotalFrames`, but the source skips a state only on
exact equality (line 2002).  A state with 5 frames rendered of an EOS-rewritten
total of 3 is fully rendered under the spec's predicate — the spec-faithful
`GetCurrentDecoderStateSpecVersion` returns `none` — yet the source returns
it. -/
theorem GetCurrentDecoderState_counterexample :
    overRenderedState.mTotalFrames ≤ overRenderedState.mFramesRendered ∧
    overRenderedState.mReadyForCollection = false ∧
    GetCurrentDecoderState [some overRenderedState] = some overRenderedState ∧
    GetCurrentDecoderStateSpecVersion [some overRenderedState] = none := by
  decide

/-- Updating the state a scan returned keeps it (updated) in the slot array. -/
theorem mem_updateDecoderState {l : ActiveDecoders} {ds : DecoderStateData}
    (f : DecoderStateData → DecoderStateData) (hmem : some ds ∈ l) :
    some (f ds) ∈ updateDecoderState l ds.mTimeStamp f := by
  unfold updateDecoderState
  have h := List.mem_map_of_mem (Option.map fun decoderState =>
    if decoderState.mTimeStamp = ds.mTimeStamp then f decoderState else decoderState) hmem
  simpa using h

/-- C6 (amended): `SeekToFrame(frame)` with `frame ≥ 0` returns false exactly
when there is no current decoder state or the current decoder does not support
seeking; on false nothing is mutated and no semaphore is signalled.  The
compare-and-swap installing the request compares the slot against the value just
loaded from it, so in the absence of a concurrent racing writer it cannot fail:
with a current, seek-capable decoder the call returns true, stores `frame` in
the slot — overwriting any request still in flight — and signals the decoder
semaphore, leaving the global counters and the queue untouched. -/
theorem SeekToFrame_spec (p : PlayerState) (frame : Int) (hframe : 0 ≤ frame) :
    ((AudioPlayer.SeekToFrame p frame).1 = false ↔
      GetCurrentDecoderState p.mActiveDecoders = none ∨
      (∃ ds, GetCurrentDecoderState p.mActiveDecoders = some ds ∧
        ds.mDecoder.mSupportsSeeking = false)) ∧
    ((AudioPlayer.SeekToFrame p frame).1 = false →
      (AudioPlayer.SeekToFrame p frame).2 = p) ∧
    (∀ ds, GetCurrentDecoderState p.mActiveDecoders = some ds →
      ds.mDecoder.mSupportsSeeking = true →
      (AudioPlayer.SeekToFrame p frame).1 = true ∧
      (AudioPlayer.SeekToFrame p frame).2.decoderSemaphoreSignals
        = p.decoderSemaphoreSignals + 1 ∧
      (AudioPlayer.SeekToFrame p frame).2.mFramesDecoded = p.mFramesDecoded ∧
      (AudioPlayer.SeekToFrame p frame).2.mFramesRendered = p.mFramesRendered ∧
      (AudioPlayer.SeekToFrame p frame).2.mDecoderQueue = p.mDecoderQueue ∧
      some { ds with mFrameToSeek := frame } ∈
        (AudioPlayer.SeekToFrame p frame).2.mActiveDecoders) := by
  cases hcur : GetCurrentDecoderState p.mActiveDecoders with
  | none =>
    refine ⟨?_, ?_, ?_⟩
    · simp [AudioPlayer.SeekToFrame, hcur]
    · intro _
      simp [AudioPlayer.SeekToFrame, hcur]
    · intro ds hds
      simp at hds
  | some cur =>
    by_cases hss : cur.mDecoder.mSupportsSeeking = true
    · have hmem : some cur ∈ p.mActiveDecoders :=
        GetCurrentDecoderState_mem_of_some p.mActiveDecoders cur hcur
      have hred : AudioPlayer.SeekToFrame p frame =
          (true, { p with
            mActiveDecoders := updateDecoderState p.mActiveDecoders cur.mTimeStamp
              (fun d => { d with mFrameToSeek := frame })
            decoderSemaphoreSignals := p.decoderSemaphoreSignals + 1 }) := by
        simp [AudioPlayer.SeekToFrame, hcur, hss]
      refine ⟨?_, ?_, ?_⟩
      · rw [hred]
        constructor
        · intro h
          simp at h
        · intro h
          rcases h with h2 | ⟨ds, hds, hds2⟩
          · cases h2
          · injection hds with h3
            subst h3
            simp [hss] at hds2
      · intro hfalse
        rw [hred] at hfalse
        cases hfalse
      · intro ds hds hss2
        injection hds with h3
        subst h3
        rw [hred]
        exact ⟨rfl, rfl, rfl, rfl, rfl,
          mem_updateDecoderState (fun d => { d with mFrameToSeek := frame }) hmem⟩
    · have hred : AudioPlayer.SeekToFrame p frame = (false, p) := by
        simp [AudioPlayer.SeekToFrame, hcur, hss]
      refine ⟨?_, ?_, ?_⟩
      · rw [hred]
        simp only [true_iff]
        refine Or.inr ⟨cur, rfl, ?_⟩
        simpa using hss
      · intro _
        rw [hred]
      · intro ds hds hss2
        injection hds with h3
        subst h3
        simp [hss2] at hss

/-- Witness for C6 (amended): on a player with one seek-capable current decoder
the call returns true, signals the worker, leaves the counters alone and stores
the request in the slot. -/
theorem SeekToFrame_spec_witness :
    (AudioPlayer.SeekToFrame inFlightSeekPlayer 7).1 = true ∧
    (AudioPlayer.SeekToFrame inFlightSeekPlayer 7).2.decoderSemaphoreSignals
      = inFlightSeekPlayer.decoderSemaphoreSignals + 1 ∧
    (AudioPlayer.SeekToFrame inFlightSeekPlayer 7).2.mFramesDecoded
      = inFlightSeekPlayer.mFramesDecoded ∧
    (AudioPlayer.SeekToFrame inFlightSeekPlayer 7).2.mFramesRendered
      = inFlightSeekPlayer.mFramesRendered ∧
    (AudioPlayer.SeekToFrame inFlightSeekPlayer 7).2.mDecoderQueue
      = inFlightSeekPlayer.mDecoderQueue ∧
    some { mkDecoderState 0 100 10 5 false with mFrameToSeek := 7 } ∈
      (AudioPlayer.SeekToFrame inFlightSeekPlayer 7).2.mActiveDecoders :=
  (SeekToFrame_spec inFlightSeekPlayer 7 (by decide)).2.2
    (mkDecoderState 0 100 10 5 false) (by decide) (by decide)

/-- Counterexample for C6 as stated: the claim has the call fail "because
another seek request is already in flight", but the compare-and-swap at line 606
compares `mFrameToSeek` against the value just loaded from `mFrameToSeek`
itself, so it succeeds even then.  With request 5 still pending, `SeekToFrame 7`
returns true and overwrites the slot with 7 instead of returning false. -/
theorem SeekToFrame_counterexample :
    GetCurrentDecoderState inFlightSeekPlayer.mActiveDecoders
      = some (mkDecoderState 0 100 10 5 false) ∧
    (mkDecoderState 0 100 10 5 false).mFrameToSeek = 5 ∧
    ¬ (mkDecoderState 0 100 10 5 false).mFrameToSeek = -1 ∧
    (mkDecoderState 0 100 10 5 false).mDecoder.mSupportsSeeking = true ∧
    (AudioPlayer.SeekToFrame inFlightSeekPlayer 7).1 = true ∧
    (AudioPlayer.SeekToFrame inFlightSeekPlayer 7).2.mActiveDecoders
      = [some (mkDecoderState 0 100 10 7 false)] := by
  decide
